import Mathlib

/-!
Verification development for the benthos streaming engine core.

The Go sources are shallowly embedded here:

* `internal/stream/type.go` — the stream supervisor: readiness check,
  layer wiring, and the tiered shutdown (`Stop`, `StopGracefully`,
  `StopUnordered`).  Durations are modelled as `Int` nanoseconds (Go's
  `time.Duration` is an `int64`; the arithmetic performed never comes close
  to overflow so plain `Int` is faithful).  Each layer is modelled by the
  time it needs to wind down after receiving its close signal, together
  with the error (if any) that its `WaitForClose` reports once it has
  closed; `WaitForClose` of a layer that cannot close within the allotted
  budget returns the timeout sentinel, exactly as the concrete layers do.
* `internal/component/input/async_reader.go` — the AsyncReader adapter:
  its read loop is embedded as an event-trace semantics.  Every observable
  action of the loop (metric increments, atomic stores to the `connected`
  flag, log lines, backoff sleeps, sends on the transaction channel,
  spawned ack waiters, the final channel close) is recorded as an event,
  and one loop iteration is a function from the read result and the
  shutdown/reconnect circumstances to the emitted events plus a control
  outcome.  Whole executions are generated from scripts of read results.
-/

namespace Benthos

/-- Error sentinels of `internal/component/errors.go` as used by the embedded
code: `ErrTimeout`, `ErrNotConnected`, `ErrTypeClosed`, and a catch-all for
any other Go error value (indexed by a code so that distinct errors exist).
A Go `error` that may be `nil` is an `Option GoError`. -/
inductive GoError where
  | timeout
  | notConnected
  | typeClosed
  | other (code : Nat)
deriving DecidableEq, Repr

/-! ## Stream supervisor: readiness (`internal/stream/type.go`) -/

/-- Minimal model of the HTTP response written by the `/ready` handler:
its status code and accumulated body. -/
structure HTTPResponse where
  status : Nat
  body : String
deriving DecidableEq, Repr

/-- The `/ready` handler closure registered by `stream.New`
(`internal/stream/type.go`).  It reads `inputLayer.Connected()` and
`outputLayer.Connected()`; when both hold it writes "OK" (Go's
`ResponseWriter` defaults the status to 200), otherwise it writes header 503
and then one line per disconnected side, input first. -/
def healthCheck (inputConnected outputConnected : Bool) : HTTPResponse :=
  if inputConnected && outputConnected then
    { status := 200, body := "OK" }
  else
    { status := 503
      body :=
        (if !inputConnected then "input not connected\n" else "")
          ++ (if !outputConnected then "output not connected\n" else "") }

/-- Model of `Type.IsReady` from `internal/stream/type.go`: the conjunction of the
input and output layers' `Connected()`. -/
def IsReady (inputConnected outputConnected : Bool) : Bool :=
  inputConnected && outputConnected

/-! ## Stream supervisor: tiered shutdown (`internal/stream/type.go`)

A layer is modelled by the time (nanoseconds, from the moment it is told to
close) it takes to fully close, and by the result its `WaitForClose`
reports once it has closed (`none` for a clean close).  `waitAt l now budget`
is `l.WaitForClose(budget)` evaluated at absolute time `now`, where the
layer's close signal was issued at absolute time `0`: it succeeds when the
layer's remaining wind-down time fits in the budget (consuming that much
time) and otherwise burns the whole budget and reports `ErrTimeout`. -/

/-- One pipeline layer, as seen by the supervisor's shutdown code. -/
structure Layer where
  dur : Nat
  closeErr : Option GoError
deriving DecidableEq, Repr

/-- The four-layer stream held by `stream.Type`: buffer and pipeline layers
are optional (`nil` in the Go struct when omitted by `start`). -/
structure StreamModel where
  input : Layer
  buffer : Option Layer
  pipe : Option Layer
  output : Layer
deriving DecidableEq, Repr

/-- Semantics of `l.WaitForClose(budget)` called at absolute time `now`, the close signal
having been issued at time `0`.  Returns the reported error and the time the
call consumed. -/
def waitAt (l : Layer) (now budget : Int) : Option GoError × Int :=
  let need : Int := (l.dur : Int) - now
  if need ≤ budget then (l.closeErr, max need 0) else (some GoError.timeout, budget)

/-- Final stage of `Type.StopGracefully`: close the output layer and wait
with the remaining budget (`timeout - elapsed`), returning `ErrTimeout` if
the budget has gone negative before the wait begins. -/
def gracefulOutputStep (s : StreamModel) (timeout elapsed : Int) : Option GoError :=
  let remaining := timeout - elapsed
  if remaining < 0 then some GoError.timeout
  else
    match waitAt s.output 0 remaining with
    | (some e, _) => some e
    | (none, _) => none

/-- Pipeline stage of `Type.StopGracefully`: skipped when the stream has no
pipeline layer, otherwise `CloseAsync` it and wait with the remaining
budget. -/
def gracefulPipelineStep (s : StreamModel) (timeout elapsed : Int) : Option GoError :=
  match s.pipe with
  | none => gracefulOutputStep s timeout elapsed
  | some p =>
    let remaining := timeout - elapsed
    if remaining < 0 then some GoError.timeout
    else
      match waitAt p 0 remaining with
      | (some e, _) => some e
      | (none, t) => gracefulOutputStep s timeout (elapsed + t)

/-- Buffer stage of `Type.StopGracefully`: skipped when the stream has no
buffer layer, otherwise `StopConsuming` it (letting it drain) and wait with
the remaining budget. -/
def gracefulBufferStep (s : StreamModel) (timeout elapsed : Int) : Option GoError :=
  match s.buffer with
  | none => gracefulPipelineStep s timeout elapsed
  | some b =>
    let remaining := timeout - elapsed
    if remaining < 0 then some GoError.timeout
    else
      match waitAt b 0 remaining with
      | (some e, _) => some e
      | (none, t) => gracefulPipelineStep s timeout (elapsed + t)

/-- Model of `Type.StopGracefully` from `internal/stream/type.go`: `CloseAsync` the
input and wait with the full timeout; then the buffer, pipeline and output
stages in order, each guarded by the remaining budget.  Any error from a
wait is returned as is. -/
def StopGracefully (s : StreamModel) (timeout : Int) : Option GoError :=
  match waitAt s.input 0 timeout with
  | (some e, _) => some e
  | (none, t) => gracefulBufferStep s timeout t

/-- Output stage of `Type.StopUnordered`; all close signals were issued at
time `0`, so the wait resumes at absolute time `elapsed`. -/
def unorderedOutputStep (s : StreamModel) (timeout elapsed : Int) : Option GoError :=
  let remaining := timeout - elapsed
  if remaining < 0 then some GoError.timeout
  else
    match waitAt s.output elapsed remaining with
    | (some e, _) => some e
    | (none, _) => none

/-- Pipeline stage of `Type.StopUnordered`. -/
def unorderedPipelineStep (s : StreamModel) (timeout elapsed : Int) : Option GoError :=
  match s.pipe with
  | none => unorderedOutputStep s timeout elapsed
  | some p =>
    let remaining := timeout - elapsed
    if remaining < 0 then some GoError.timeout
    else
      match waitAt p elapsed remaining with
      | (some e, _) => some e
      | (none, t) => unorderedOutputStep s timeout (elapsed + t)

/-- Buffer stage of `Type.StopUnordered`. -/
def unorderedBufferStep (s : StreamModel) (timeout elapsed : Int) : Option GoError :=
  match s.buffer with
  | none => unorderedPipelineStep s timeout elapsed
  | some b =>
    let remaining := timeout - elapsed
    if remaining < 0 then some GoError.timeout
    else
      match waitAt b elapsed remaining with
      | (some e, _) => some e
      | (none, t) => unorderedPipelineStep s timeout (elapsed + t)

/-- Model of `Type.StopUnordered` from `internal/stream/type.go`: `CloseAsync` every
present layer up front (so every layer's wind-down starts at time `0`), then
wait for each in declaration order, tracking the remaining budget. -/
def StopUnordered (s : StreamModel) (timeout : Int) : Option GoError :=
  match waitAt s.input 0 timeout with
  | (some e, _) => some e
  | (none, t) => unorderedBufferStep s timeout t

/-- Model of `Type.Stop` from `internal/stream/type.go`: carve `timeout/4` (Go int64
division, i.e. truncation toward zero) off for the unordered tier, attempt
`StopGracefully` with the rest, and only on a non-nil result (after logging,
which has no bearing on control flow) attempt `StopUnordered`, whose result
is returned. -/
def Stop (s : StreamModel) (timeout : Int) : Option GoError :=
  let tOutUnordered := Int.tdiv timeout 4
  let tOutGraceful := timeout - tOutUnordered
  match StopGracefully s tOutGraceful with
  | none => none
  | some _ =>
    match StopUnordered s tOutUnordered with
    | none => none
    | some e => some e

/-- Spec-side restatement for the refinement check ("Close the Input
at-leisure and wait … Then stop consuming the buffer … Then close the
pipeline; wait. Then close the output; wait. If any wait exceeds the
remaining budget, return timeout."): the
graceful tier as a uniform pass over the ordered list of present layers with
a dwindling budget. -/
def runStages : List Layer → Int → Option GoError
  | [], _ => none
  | l :: rest, budget =>
    if budget < 0 then some GoError.timeout
    else
      match waitAt l 0 budget with
      | (some e, _) => some e
      | (none, t) => runStages rest (budget - t)

/-- The layers the graceful tier visits, in the spec's order: input, then
buffer if present, then pipeline if present, then output. -/
def gracefulStages (s : StreamModel) : List Layer :=
  s.input :: (s.buffer.toList ++ (s.pipe.toList ++ [s.output]))

/-! ## AsyncReader (`internal/component/input/async_reader.go`)

The read loop is embedded as an event-trace semantics: each observable
action of `AsyncReader.loop` is an `Ev`, a loop iteration maps the read
result and circumstances to the events it emits plus a control outcome, and
a whole execution is generated from a script of read results (each carrying
the connector's answers to any reconnection attempts it triggers). -/

/-- Observable actions of the AsyncReader loop.  `lostConn`, `upConn`,
`failedConn`, `rcvd` are increments of the `input_connection_lost`,
`input_connection_up`, `input_connection_failed`, `input_received` counters;
`setConnected b` is `atomic.StoreInt32(&r.connected, b)`;
`connectReturnedOk` records `reader.ConnectWithContext` returning nil;
`resetBackoff` is `connBackoff.Reset()`; `sleepBackoffTick` is the select on
`time.After(connBackoff.NextBackOff())`; `sendTransaction` is the send on
`r.transactions`; `spawnAckWaiter` is the ack-waiter goroutine spawn;
`closedTransactions` is the deferred `close(r.transactions)`. -/
inductive Ev where
  | lostConn
  | upConn
  | failedConn
  | rcvd
  | setConnected (b : Bool)
  | connectReturnedOk
  | resetBackoff
  | sleepBackoffTick
  | logError
  | sendTransaction
  | spawnAckWaiter
  | closedTransactions
deriving DecidableEq, Repr

/-- Result of one `ConnectWithContext` attempt inside `initConnection`:
connect succeeded, the loop must abort (`shutSig` at leisure or
`ErrTypeClosed`), or back off and retry. -/
inductive ConnOutcome where
  | success
  | closed
  | retry
deriving DecidableEq, Repr

/-- One iteration of the `for` loop inside `initConnection`
(`async_reader.go`): on a nil connect error, reset the backoff and report
success; on `ErrTypeClosed` or with the at-leisure signal raised, abort;
on any other error, log it, increment `input_connection_failed` and sleep
one backoff tick before retrying.  The nil-error event trace starts with
`connectReturnedOk`, the observation that the connector's connect call
returned success. -/
def connectAttempt (shut : Bool) (res : Option GoError) : List Ev × ConnOutcome :=
  match res with
  | none => ([Ev.connectReturnedOk, Ev.resetBackoff], ConnOutcome.success)
  | some e =>
    if shut = true ∨ e = GoError.typeClosed then ([], ConnOutcome.closed)
    else ([Ev.logError, Ev.failedConn, Ev.sleepBackoffTick], ConnOutcome.retry)

/-- Model of `initConnection` from `async_reader.go`, driven by a script of connect
results: loop over attempts until one succeeds (`true`) or aborts (`false`).
An exhausted script models the context being cancelled mid-backoff, which
also makes `initConnection` return `false`. -/
def initConnection (shut : Bool) : List (Option GoError) → List Ev × Bool
  | [] => ([], false)
  | r :: rest =>
    match connectAttempt shut r with
    | (evs, ConnOutcome.success) => (evs, true)
    | (evs, ConnOutcome.closed) => (evs, false)
    | (evs, ConnOutcome.retry) =>
      let more := initConnection shut rest
      (evs ++ more.1, more.2)

/-- Control outcome of one read-loop iteration: `terminate` leaves the loop
(running the deferred shutdown), `retry` re-enters it after a backoff sleep,
`produced` re-enters it after sending a transaction downstream. -/
inductive StepOutcome where
  | terminate
  | retry
  | produced
deriving DecidableEq, Repr

/-- The tail of a read-loop iteration in `AsyncReader.loop`, directly after
the `ErrNotConnected` block: terminate when the at-leisure signal is raised
or the read returned `ErrTypeClosed`; otherwise, on any error or a nil
batch, log (only errors other than `ErrTimeout` and `ErrNotConnected`) and
sleep one backoff tick before retrying; otherwise reset the backoff, count
the batch, send the transaction and spawn its ack waiter.  `evs` carries the
events already emitted by the iteration. -/
def afterConnCheck (shut : Bool) (msg : Option Nat) (err : Option GoError) (evs : List Ev) :
    List Ev × StepOutcome :=
  if shut = true ∨ err = some GoError.typeClosed then (evs, StepOutcome.terminate)
  else if err ≠ none ∨ msg = none then
    (evs
        ++ (if err ≠ none ∧ err ≠ some GoError.timeout ∧ err ≠ some GoError.notConnected then
              [Ev.logError]
            else [])
        ++ [Ev.sleepBackoffTick],
      StepOutcome.retry)
  else
    (evs ++ [Ev.resetBackoff, Ev.rcvd, Ev.sendTransaction, Ev.spawnAckWaiter],
      StepOutcome.produced)

/-- One full iteration of the read loop in `AsyncReader.loop`, given the
batch (`msg`, an opaque identifier or `none` for a nil batch) and error the
read returned, the sampled at-leisure signal, and the behaviour
`(connEvs, connOk)` of `initConnection` should the `ErrNotConnected` branch
invoke it: on `ErrNotConnected` the loop increments `input_connection_lost`,
clears the `connected` flag, re-enters the connect loop, and terminates if
that fails, else increments `input_connection_up`, sets the flag, and falls
through to the common checks. -/
def readStep (shut : Bool) (connEvs : List Ev) (connOk : Bool) (msg : Option Nat)
    (err : Option GoError) : List Ev × StepOutcome :=
  if err = some GoError.notConnected then
    let evs := Ev.lostConn :: Ev.setConnected false :: connEvs
    if connOk = false then (evs, StepOutcome.terminate)
    else afterConnCheck shut msg err (evs ++ [Ev.upConn, Ev.setConnected true])
  else afterConnCheck shut msg err []

/-- One scripted read: what `ReadWithContext` returns, plus the connector's
answers to the reconnection attempts triggered if it returns
`ErrNotConnected`. -/
structure ReadItem where
  msg : Option Nat
  err : Option GoError
  reconnect : List (Option GoError)
deriving DecidableEq, Repr

/-- The deferred tail of `AsyncReader.loop`: clear the `connected` flag,
then close the transactions channel. -/
def shutdownEvs : List Ev := [Ev.setConnected false, Ev.closedTransactions]

/-- One read-loop iteration of a run: expand the reconnection script through
`initConnection` and feed it to `readStep` (no external shutdown signal is
raised during a scripted run). -/
def loopIter (it : ReadItem) : List Ev × StepOutcome :=
  let conn := initConnection false it.reconnect
  readStep false conn.1 conn.2 it.msg it.err

/-- The read loop over a script of reads; an exhausted script models the
at-leisure signal arriving, after which the deferred shutdown runs. -/
def loopRun : List ReadItem → List Ev
  | [] => shutdownEvs
  | it :: rest =>
    match loopIter it with
    | (evs, StepOutcome.terminate) => evs ++ shutdownEvs
    | (evs, _) => evs ++ loopRun rest

/-- A whole `AsyncReader.loop` execution: the initial `initConnection`
(driven by `ic`), then — if it succeeded — `input_connection_up`, setting
the `connected` flag and the read loop over `script`; otherwise straight to
the deferred shutdown. -/
def asyncReaderRun (ic : List (Option GoError)) (script : List ReadItem) : List Ev :=
  match initConnection false ic with
  | (evs, true) => evs ++ Ev.upConn :: Ev.setConnected true :: loopRun script
  | (evs, false) => evs ++ shutdownEvs

/-- Scanner for the claim that the `connected` flag is raised only
immediately after a successful connect: accept a trace iff every
`setConnected true` occurs as the tail of the block
`connectReturnedOk, resetBackoff, upConn, setConnected true` (the only two
call sites both emit exactly this block). -/
def setTrueAfterConnectOk : List Ev → Bool
  | [] => true
  | Ev.connectReturnedOk :: Ev.resetBackoff :: Ev.upConn :: Ev.setConnected true :: rest =>
    setTrueAfterConnectOk rest
  | Ev.setConnected true :: _ => false
  | _ :: rest => setTrueAfterConnectOk rest

/-- Scanner for the claim that the flag is cleared when a read returns
`ErrNotConnected`: accept a trace iff every `input_connection_lost`
increment is immediately followed by `setConnected false`. -/
def clearAfterLost : List Ev → Bool
  | [] => true
  | Ev.lostConn :: Ev.setConnected false :: rest => clearAfterLost rest
  | Ev.lostConn :: _ => false
  | _ :: rest => clearAfterLost rest

/-! ## AsyncReader construction, shutdown wait, ack waiter -/

/-- The fields of the `cenkalti/backoff` exponential backoff policy that
`NewAsyncReader` configures (nanoseconds). -/
structure ExponentialBackOffConf where
  initialInterval : Int
  maxInterval : Int
  maxElapsedTime : Int
deriving DecidableEq, Repr

/-- One millisecond in nanoseconds (`time.Millisecond`). -/
def millisecondNs : Int := 1000000

/-- One second in nanoseconds (`time.Second`). -/
def secondNs : Int := 1000000000

/-- The backoff configured by `NewAsyncReader`:
`InitialInterval = time.Millisecond * 100`, `MaxInterval = time.Second`,
`MaxElapsedTime = 0` (which the backoff library treats as "never give up
based on elapsed time"). -/
def newAsyncReaderBackoff : ExponentialBackOffConf :=
  { initialInterval := 100 * millisecondNs
    maxInterval := secondNs
    maxElapsedTime := 0 }

/-- Which of the two awaited channels fires first inside the ack-waiter
goroutine spawned by `AsyncReader.loop`: the transaction's reply (with its
verdict) or the close-now signal. -/
inductive AwaitFirst where
  | replyFirst (res : Option GoError)
  | closeNowFirst
deriving DecidableEq, Repr

/-- Observable actions of the ack-waiter goroutine: the latency timing, the
span finish, and the invocation of the connector's ack callback with the
verdict — the invocation's context is `shutSig.CloseNowCtx`, so the attempt
is bounded by the close-now signal. -/
inductive AckEv where
  | recordLatency
  | finishSpans
  | invokeAck (res : Option GoError)
deriving DecidableEq, Repr

/-- The ack-waiter goroutine of `AsyncReader.loop`: select on the reply
channel against `CloseNowChan`.  If close-now fires first the goroutine
returns at once — nothing further happens; if the reply arrives first it
records the latency, finishes the spans, and invokes the connector's ack
callback with the verdict under the close-now-bounded context. -/
def ackWaiter : AwaitFirst → List AckEv
  | AwaitFirst.replyFirst res =>
    [AckEv.recordLatency, AckEv.finishSpans, AckEv.invokeAck res]
  | AwaitFirst.closeNowFirst => []

/-- Semantics of `time.After(d)`: it fires after `d`, or immediately when `d ≤ 0`. -/
def timeAfterDelay (d : Int) : Int := max d 0

/-- The delay, from the `AsyncReader.WaitForClose(timeout)` call, after
which its helper goroutine raises the close-now signal:
`time.After(timeout - time.Second)`. -/
def closeNowDelay (timeout : Int) : Int := timeAfterDelay (timeout - secondNs)

/-- The outer select of `AsyncReader.WaitForClose(timeout)`: nil if the
reader's shutdown completes (at `closedAt`) within the timeout, and
`ErrTimeout` if `time.After(timeout)` fires first (or shutdown never
completes). -/
def waitForCloseResult (timeout : Int) (closedAt : Option Int) : Option GoError :=
  match closedAt with
  | some t => if t ≤ timeout then none else some GoError.timeout
  | none => some GoError.timeout

/-! ## Layer wiring by the supervisor (`Type.start`) and the Consume
contract -/

/-- The per-stream configuration keys `Type.start` inspects: the buffer
type string and the pipeline processor list (processors opaque). -/
structure StreamConfig where
  bufferType : String
  processors : List Nat
deriving DecidableEq, Repr

/-- The four layer positions of a stream. -/
inductive LayerId where
  | input
  | buffer
  | pipe
  | output
deriving DecidableEq, Repr

/-- Wires laid by `Type.start` (`internal/stream/type.go`): construct the
buffer layer only when `conf.Buffer.Type != "none"` and the pipeline layer
only when `len(conf.Pipeline.Processors) > 0`; then thread `nextTranChan`
from the input through each present layer's `Consume`/`TransactionChan` to
the output.  A wire `(p, c)` records `c.Consume(p.TransactionChan())`. -/
def startWires (c : StreamConfig) : List (LayerId × LayerId) :=
  let s1 : List (LayerId × LayerId) × LayerId :=
    if c.bufferType ≠ "none" then ([(LayerId.input, LayerId.buffer)], LayerId.buffer)
    else ([], LayerId.input)
  let s2 : List (LayerId × LayerId) × LayerId :=
    if 0 < c.processors.length then (s1.1 ++ [(s1.2, LayerId.pipe)], LayerId.pipe)
    else s1
  s2.1 ++ [(s2.2, LayerId.output)]

/-- Spec-side restatement for the refinement check ("Wires Input →
(Buffer?) → (Pipeline?) → Output by passing each producer's outbound
channel to the next consumer's Consume"): the ordered list of present layers. -/
def specLayers (c : StreamConfig) : List LayerId :=
  [LayerId.input]
    ++ (if c.bufferType ≠ "none" then [LayerId.buffer] else [])
    ++ (if 0 < c.processors.length then [LayerId.pipe] else [])
    ++ [LayerId.output]

/-- Consecutive pairs of a chain: the wires of a layer list in which each
producer feeds the next consumer. -/
def chainWires : List LayerId → List (LayerId × LayerId)
  | a :: b :: rest => (a, b) :: chainWires (b :: rest)
  | _ => []

/-- Modelled from the spec: the async writer layer's `Consume` registration
is not among the sources (only its unit test is); per the spec, "Calling
`Consume` twice on any layer is a contract violation and returns an error".
The layer keeps the inbound channel it was handed (an opaque identifier);
`Consume` stores it on first call and errors once one is already
configured. -/
structure AsyncWriter where
  tsChan : Option Nat
deriving DecidableEq, Repr

/-- A freshly constructed async writer layer: no inbound channel yet. -/
def newAsyncWriter : AsyncWriter := { tsChan := none }

/-- Modelled from the spec: `Consume` on the async writer layer. -/
def AsyncWriter.consume (w : AsyncWriter) (ch : Nat) : Except String AsyncWriter :=
  match w.tsChan with
  | some _ => Except.error "msg chan already configured"
  | none => Except.ok { w with tsChan := some ch }

/-! ## Theorems -/

/-- Claim C4: for every state of the stream, the `/ready` handler responds
200 with body "OK" exactly when both the input and the output layer report
`Connected()`; otherwise it responds 503 with a body naming each side that
is not connected; and `IsReady` is exactly the conjunction
`Input.Connected() && Output.Connected()`. -/
theorem c4_ready_endpoint :
    (∀ inC outC : Bool, IsReady inC outC = (inC && outC))
    ∧ (∀ inC outC : Bool,
        ((healthCheck inC outC).status = 200 ∧ (healthCheck inC outC).body = "OK")
          ↔ (inC && outC) = true)
    ∧ healthCheck true true = { status := 200, body := "OK" }
    ∧ healthCheck false true = { status := 503, body := "input not connected\n" }
    ∧ healthCheck true false = { status := 503, body := "output not connected\n" }
    ∧ healthCheck false false
        = { status := 503, body := "input not connected\noutput not connected\n" } := by
  refine ⟨fun _ _ => rfl, fun inC outC => ?_, rfl, rfl, rfl, rfl⟩
  cases inC <;> cases outC <;> simp [healthCheck]

/-- Claim C1: for every total deadline, `Stop` first attempts the graceful
tier with budget `timeout - timeout/4` and returns nil when it succeeds;
on any error from the graceful attempt (timeout or otherwise — the logging
distinction does not affect the tier transition) it attempts the unordered
tier with budget `timeout/4` and returns that attempt's result (nil on
success, its error otherwise).  The unordered tier is never entered when
the graceful tier succeeded. -/
theorem c1_stop_tiered_shutdown :
    ∀ (s : StreamModel) (timeout : Int),
      Stop s timeout =
        match StopGracefully s (timeout - Int.tdiv timeout 4) with
        | none => none
        | some _ => StopUnordered s (Int.tdiv timeout 4) := by
  intro s timeout
  unfold Stop
  cases hg : StopGracefully s (timeout - Int.tdiv timeout 4) with
  | none => simp [hg]
  | some e =>
    simp only [hg]
    cases hu : StopUnordered s (Int.tdiv timeout 4) <;> simp [hu]

/-- Claim C6: the connect loop's backoff is configured with initial
interval 100 ms, maximum interval 1 s and no elapsed-time limit
(`MaxElapsedTime = 0`); a connect error that is not `ErrTypeClosed` (absent
a shutdown signal) is logged, increments `input_connection_failed` and is
retried after the next backoff interval; every successful connect resets
the backoff. -/
theorem c6_connect_backoff :
    newAsyncReaderBackoff.initialInterval = 100 * 1000000
    ∧ newAsyncReaderBackoff.maxInterval = 1000000000
    ∧ newAsyncReaderBackoff.maxElapsedTime = 0
    ∧ (∀ e : GoError, e ≠ GoError.typeClosed →
        connectAttempt false (some e)
          = ([Ev.logError, Ev.failedConn, Ev.sleepBackoffTick], ConnOutcome.retry))
    ∧ (∀ shut : Bool,
        connectAttempt shut none
          = ([Ev.connectReturnedOk, Ev.resetBackoff], ConnOutcome.success)) := by
  refine ⟨rfl, rfl, rfl, ?_, fun _ => rfl⟩
  intro e he
  simp [connectAttempt, he]

/-- Witness for C6 at a concrete non-closed connect error. -/
theorem c6_connect_backoff_witness :
    GoError.notConnected ≠ GoError.typeClosed
    ∧ connectAttempt false (some GoError.notConnected)
        = ([Ev.logError, Ev.failedConn, Ev.sleepBackoffTick], ConnOutcome.retry) :=
  ⟨by decide, c6_connect_backoff.2.2.2.1 GoError.notConnected (by decide)⟩

/-- Claim C7, counterexample: an ack waiter whose reply has not yet arrived
when close-now is signalled does NOT invoke the connector's ack callback —
the select's close-now arm returns at once, emitting no event at all —
contradicting the claim that every such waiter still attempts propagation
(its trace would have to contain an `invokeAck`). -/
theorem c7_closeNow_waiter_never_acks :
    ackWaiter AwaitFirst.closeNowFirst = []
    ∧ (ackWaiter AwaitFirst.closeNowFirst).any
        (fun ev => match ev with
          | AckEv.invokeAck _ => true
          | _ => false) = false :=
  ⟨rfl, rfl⟩

/-- Claim C7 as amended: an ack waiter whose reply arrives before close-now
records the latency, finishes the spans and invokes the connector's ack
callback with the verdict, the invocation being bounded by the close-now
context; a waiter cut off by close-now before its reply arrives returns
without invoking the callback — close-now bounds its wait. -/
theorem c7_ack_waiter_propagation :
    (∀ res : Option GoError,
        ackWaiter (AwaitFirst.replyFirst res)
          = [AckEv.recordLatency, AckEv.finishSpans, AckEv.invokeAck res])
    ∧ ackWaiter AwaitFirst.closeNowFirst = [] :=
  ⟨fun _ => rfl, rfl⟩

/-- Claim C8: the supervisor omits the buffer layer exactly when the
configured buffer type is "none" and the pipeline layer exactly when the
processor list is empty; the remaining layers are wired in order
input → buffer? → pipeline? → output, each producer's transaction channel
feeding the next layer's `Consume`. -/
theorem c8_layer_wiring :
    ∀ c : StreamConfig,
      startWires c = chainWires (specLayers c)
      ∧ (LayerId.buffer ∈ specLayers c ↔ c.bufferType ≠ "none")
      ∧ (LayerId.pipe ∈ specLayers c ↔ c.processors ≠ []) := by
  intro c
  by_cases hb : c.bufferType = "none" <;> by_cases hp : c.processors = [] <;>
    simp [startWires, specLayers, chainWires, hb, hp, List.length_pos]

/-- Claim C9: a first `Consume` on a fresh layer succeeds, and a second
`Consume` after a successful first call returns a non-nil error. -/
theorem c9_consume_twice_errors :
    (∀ ch : Nat,
        AsyncWriter.consume newAsyncWriter ch = Except.ok { tsChan := some ch })
    ∧ (∀ (ch1 ch2 : Nat) (w : AsyncWriter),
        AsyncWriter.consume newAsyncWriter ch1 = Except.ok w →
        ∃ e, AsyncWriter.consume w ch2 = Except.error e) := by
  refine ⟨fun _ => rfl, ?_⟩
  intro ch1 ch2 w h
  have hw : w = { tsChan := some ch1 } := by
    simpa [AsyncWriter.consume, newAsyncWriter] using h.symm
  subst hw
  exact ⟨"msg chan already configured", rfl⟩

/-- Witness for C9 at concrete channels. -/
theorem c9_consume_twice_errors_witness :
    AsyncWriter.consume newAsyncWriter 0 = Except.ok { tsChan := some 0 }
    ∧ ∃ e, AsyncWriter.consume { tsChan := some 0 } 1 = Except.error e :=
  ⟨rfl, c9_consume_twice_errors.2 0 1 { tsChan := some 0 } rfl⟩

/-- Claim C10: `WaitForClose(d)` schedules the close-now signal after
`d - 1s` (immediately when that is non-positive, since `time.After` fires
at once for non-positive durations) and waits up to `d` for the shutdown to
complete, returning nil when it completes in time and `ErrTimeout`
otherwise; hence for any `d ≤ 1s` the close-now signal fires at once and
the at-leisure grace window collapses to zero. -/
theorem c10_waitForClose_schedule :
    ∀ d : Int,
      closeNowDelay d = max (d - secondNs) 0
      ∧ (d ≤ secondNs → closeNowDelay d = 0)
      ∧ (secondNs ≤ d → closeNowDelay d = d - secondNs)
      ∧ (∀ t : Int, t ≤ d → waitForCloseResult d (some t) = none)
      ∧ (∀ t : Int, d < t → waitForCloseResult d (some t) = some GoError.timeout)
      ∧ waitForCloseResult d none = some GoError.timeout := by
  intro d
  refine ⟨rfl, ?_, ?_, ?_, ?_, rfl⟩
  · intro h
    simp only [closeNowDelay, timeAfterDelay]
    omega
  · intro h
    simp only [closeNowDelay, timeAfterDelay]
    omega
  · intro t ht
    simp [waitForCloseResult, ht]
  · intro t ht
    simp only [waitForCloseResult, if_neg (by omega : ¬ t ≤ d)]

/-- Witness for C10: a half-second timeout collapses the grace window and
the outer select behaves as stated. -/
theorem c10_waitForClose_schedule_witness :
    closeNowDelay 500000000 = 0
    ∧ waitForCloseResult 500000000 (some 1) = none
    ∧ waitForCloseResult 500000000 (some 600000000) = some GoError.timeout := by
  have h := c10_waitForClose_schedule 500000000
  exact ⟨h.2.1 (by norm_num [secondNs]), h.2.2.2.1 1 (by norm_num),
    h.2.2.2.2.1 600000000 (by norm_num)⟩

/-- Helper for C2: the output stage of the graceful tier is the one-stage
run with the remaining budget. -/
theorem gracefulOutputStep_eq_runStages (s : StreamModel) (timeout elapsed : Int) :
    gracefulOutputStep s timeout elapsed = runStages [s.output] (timeout - elapsed) := by
  by_cases hr : timeout - elapsed < 0
  · simp [gracefulOutputStep, runStages, hr]
  · rcases h : waitAt s.output 0 (timeout - elapsed) with ⟨e, t⟩
    cases e <;> simp [gracefulOutputStep, runStages, hr, h]

/-- Helper for C2: the pipeline stage of the graceful tier runs the
remaining stages with the remaining budget. -/
theorem gracefulPipelineStep_eq_runStages (s : StreamModel) (timeout elapsed : Int) :
    gracefulPipelineStep s timeout elapsed
      = runStages (s.pipe.toList ++ [s.output]) (timeout - elapsed) := by
  rcases hp : s.pipe with _ | p
  · simpa [gracefulPipelineStep, hp] using gracefulOutputStep_eq_runStages s timeout elapsed
  · by_cases hr : timeout - elapsed < 0
    · simp [gracefulPipelineStep, hp, runStages, hr]
    · rcases h : waitAt p 0 (timeout - elapsed) with ⟨e, t⟩
      cases e
      · have harith : timeout - (elapsed + t) = timeout - elapsed - t := by ring
        have hout := gracefulOutputStep_eq_runStages s timeout (elapsed + t)
        rw [harith] at hout
        simp [gracefulPipelineStep, hp, runStages, hr, h, hout]
      · simp [gracefulPipelineStep, hp, runStages, hr, h]

/-- Helper for C2: the buffer stage of the graceful tier runs the remaining
stages with the remaining budget. -/
theorem gracefulBufferStep_eq_runStages (s : StreamModel) (timeout elapsed : Int) :
    gracefulBufferStep s timeout elapsed
      = runStages (s.buffer.toList ++ (s.pipe.toList ++ [s.output])) (timeout - elapsed) := by
  rcases hb : s.buffer with _ | b
  · simpa [gracefulBufferStep, hb] using gracefulPipelineStep_eq_runStages s timeout elapsed
  · by_cases hr : timeout - elapsed < 0
    · simp [gracefulBufferStep, hb, runStages, hr]
    · rcases h : waitAt b 0 (timeout - elapsed) with ⟨e, t⟩
      cases e
      · have harith : timeout - (elapsed + t) = timeout - elapsed - t := by ring
        have hnext := gracefulPipelineStep_eq_runStages s timeout (elapsed + t)
        rw [harith] at hnext
        simp [gracefulBufferStep, hb, runStages, hr, h, hnext]
      · simp [gracefulBufferStep, hb, runStages, hr, h]

/-- Claim C2: for every stream and timeout, the graceful shutdown proceeds
in order — input, then the buffer layer when present, then the pipeline
layer when present, then the output — waiting for each to close with the
remaining budget (timeout minus elapsed time) and returning `ErrTimeout`
whenever a wait cannot finish within (or the budget is already exhausted
before) a later wait: `StopGracefully` coincides with the uniform
budget-tracking pass over the ordered stage list. -/
theorem c2_stopGracefully_staged :
    ∀ (s : StreamModel) (timeout : Int),
      StopGracefully s timeout = runStages (gracefulStages s) timeout := by
  intro s timeout
  by_cases hr : timeout < 0
  · have hd : ¬ ((s.input.dur : Int) ≤ timeout) := by omega
    simp [StopGracefully, gracefulStages, waitAt, runStages, hr, hd]
  · rcases h : waitAt s.input 0 timeout with ⟨e, t⟩
    cases e
    · have hnext := gracefulBufferStep_eq_runStages s timeout t
      simp [StopGracefully, gracefulStages, runStages, hr, h, hnext]
    · simp [StopGracefully, gracefulStages, runStages, hr, h]

/-- Claim C3: classification of every read result by the loop.  A nil error
with a batch produces a transaction; `ErrNotConnected` increments
`input_connection_lost`, clears the flag and re-enters the connect loop
(terminating if that aborts, otherwise marking up and falling through to a
backoff sleep); `ErrTypeClosed`, or the at-leisure signal, terminates the
loop; `ErrTimeout` or a nil batch with nil error sleeps one backoff tick
and retries without logging; any other error is logged and then sleeps one
backoff tick before retrying. -/
theorem c3_read_classification :
    ∀ (connEvs : List Ev) (connOk : Bool) (msg : Option Nat) (err : Option GoError)
      (b code : Nat),
      readStep false connEvs connOk (some b) none
          = ([Ev.resetBackoff, Ev.rcvd, Ev.sendTransaction, Ev.spawnAckWaiter],
              StepOutcome.produced)
      ∧ readStep false connEvs true msg (some GoError.notConnected)
          = (Ev.lostConn :: Ev.setConnected false :: connEvs
              ++ [Ev.upConn, Ev.setConnected true, Ev.sleepBackoffTick], StepOutcome.retry)
      ∧ readStep false connEvs false msg (some GoError.notConnected)
          = (Ev.lostConn :: Ev.setConnected false :: connEvs, StepOutcome.terminate)
      ∧ readStep false connEvs connOk msg (some GoError.typeClosed)
          = ([], StepOutcome.terminate)
      ∧ (readStep true connEvs connOk msg err).2 = StepOutcome.terminate
      ∧ readStep false connEvs connOk msg (some GoError.timeout)
          = ([Ev.sleepBackoffTick], StepOutcome.retry)
      ∧ readStep false connEvs connOk none none = ([Ev.sleepBackoffTick], StepOutcome.retry)
      ∧ readStep false connEvs connOk msg (some (GoError.other code))
          = ([Ev.logError, Ev.sleepBackoffTick], StepOutcome.retry) := by
  intro connEvs connOk msg err b code
  refine ⟨?_, ?_, ?_, ?_, ?_, ?_, ?_, ?_⟩
  · simp [readStep, afterConnCheck]
  · simp [readStep, afterConnCheck]
  · simp [readStep]
  · simp [readStep, afterConnCheck]
  · rcases err with _ | e
    · simp [readStep, afterConnCheck]
    · cases e <;> cases connOk <;> simp [readStep, afterConnCheck]
  · simp [readStep, afterConnCheck]
  · simp [readStep, afterConnCheck]
  · simp [readStep, afterConnCheck]

/-- Helper: the raised-flag scanner skips a lone `lostConn`. -/
theorem stA_lost (l : List Ev) :
    setTrueAfterConnectOk (Ev.lostConn :: l) = setTrueAfterConnectOk l := rfl

/-- Helper: the raised-flag scanner skips `setConnected false`. -/
theorem stA_setFalse (l : List Ev) :
    setTrueAfterConnectOk (Ev.setConnected false :: l) = setTrueAfterConnectOk l := rfl

/-- Helper: the raised-flag scanner skips a lone `resetBackoff`. -/
theorem stA_reset (l : List Ev) :
    setTrueAfterConnectOk (Ev.resetBackoff :: l) = setTrueAfterConnectOk l := rfl

/-- Helper: the raised-flag scanner skips `rcvd`. -/
theorem stA_rcvd (l : List Ev) :
    setTrueAfterConnectOk (Ev.rcvd :: l) = setTrueAfterConnectOk l := rfl

/-- Helper: the raised-flag scanner skips `sendTransaction`. -/
theorem stA_send (l : List Ev) :
    setTrueAfterConnectOk (Ev.sendTransaction :: l) = setTrueAfterConnectOk l := rfl

/-- Helper: the raised-flag scanner skips `spawnAckWaiter`. -/
theorem stA_spawn (l : List Ev) :
    setTrueAfterConnectOk (Ev.spawnAckWaiter :: l) = setTrueAfterConnectOk l := rfl

/-- Helper: the raised-flag scanner skips `sleepBackoffTick`. -/
theorem stA_sleep (l : List Ev) :
    setTrueAfterConnectOk (Ev.sleepBackoffTick :: l) = setTrueAfterConnectOk l := rfl

/-- Helper: the raised-flag scanner skips `logError`. -/
theorem stA_log (l : List Ev) :
    setTrueAfterConnectOk (Ev.logError :: l) = setTrueAfterConnectOk l := rfl

/-- Helper: the raised-flag scanner skips `failedConn`. -/
theorem stA_failed (l : List Ev) :
    setTrueAfterConnectOk (Ev.failedConn :: l) = setTrueAfterConnectOk l := rfl

/-- Helper: the raised-flag scanner skips `closedTransactions`. -/
theorem stA_closedT (l : List Ev) :
    setTrueAfterConnectOk (Ev.closedTransactions :: l) = setTrueAfterConnectOk l := rfl

/-- Helper: the raised-flag scanner accepts the successful-connect block. -/
theorem stA_block (l : List Ev) :
    setTrueAfterConnectOk (Ev.connectReturnedOk :: Ev.resetBackoff :: Ev.upConn ::
      Ev.setConnected true :: l) = setTrueAfterConnectOk l := rfl

/-- Helper: the lost-then-clear scanner consumes the
`lostConn, setConnected false` pair. -/
theorem clA_pair (l : List Ev) :
    clearAfterLost (Ev.lostConn :: Ev.setConnected false :: l) = clearAfterLost l := rfl

/-- Helper: the lost-then-clear scanner skips `setConnected`. -/
theorem clA_set (b : Bool) (l : List Ev) :
    clearAfterLost (Ev.setConnected b :: l) = clearAfterLost l := rfl

/-- Helper: the lost-then-clear scanner skips `connectReturnedOk`. -/
theorem clA_cro (l : List Ev) :
    clearAfterLost (Ev.connectReturnedOk :: l) = clearAfterLost l := rfl

/-- Helper: the lost-then-clear scanner skips `resetBackoff`. -/
theorem clA_reset (l : List Ev) :
    clearAfterLost (Ev.resetBackoff :: l) = clearAfterLost l := rfl

/-- Helper: the lost-then-clear scanner skips `upConn`. -/
theorem clA_up (l : List Ev) :
    clearAfterLost (Ev.upConn :: l) = clearAfterLost l := rfl

/-- Helper: the lost-then-clear scanner skips `sleepBackoffTick`. -/
theorem clA_sleep (l : List Ev) :
    clearAfterLost (Ev.sleepBackoffTick :: l) = clearAfterLost l := rfl

/-- Helper: the lost-then-clear scanner skips `logError`. -/
theorem clA_log (l : List Ev) :
    clearAfterLost (Ev.logError :: l) = clearAfterLost l := rfl

/-- Helper: the lost-then-clear scanner skips `failedConn`. -/
theorem clA_failed (l : List Ev) :
    clearAfterLost (Ev.failedConn :: l) = clearAfterLost l := rfl

/-- Helper: the lost-then-clear scanner skips `rcvd`. -/
theorem clA_rcvd (l : List Ev) :
    clearAfterLost (Ev.rcvd :: l) = clearAfterLost l := rfl

/-- Helper: the lost-then-clear scanner skips `sendTransaction`. -/
theorem clA_send (l : List Ev) :
    clearAfterLost (Ev.sendTransaction :: l) = clearAfterLost l := rfl

/-- Helper: the lost-then-clear scanner skips `spawnAckWaiter`. -/
theorem clA_spawn (l : List Ev) :
    clearAfterLost (Ev.spawnAckWaiter :: l) = clearAfterLost l := rfl

/-- Helper: the lost-then-clear scanner skips `closedTransactions`. -/
theorem clA_closedT (l : List Ev) :
    clearAfterLost (Ev.closedTransactions :: l) = clearAfterLost l := rfl

/-- Helper for C5: a successful `initConnection` emits a trace that,
followed by the call site's `upConn, setConnected true`, is transparent to
the raised-flag scanner. -/
theorem initConnection_scanTrue (l : List (Option GoError)) (rest : List Ev) :
    (initConnection false l).2 = true →
    setTrueAfterConnectOk
        ((initConnection false l).1 ++ Ev.upConn :: Ev.setConnected true :: rest)
      = setTrueAfterConnectOk rest := by
  induction l with
  | nil => intro h; simp [initConnection] at h
  | cons r tl ih =>
    intro h
    rcases r with _ | e
    · simp only [initConnection, connectAttempt, List.cons_append, List.nil_append]
      exact stA_block rest
    · by_cases he : e = GoError.typeClosed
      · subst he
        simp [initConnection, connectAttempt] at h
      · simp only [initConnection, connectAttempt] at h ⊢
        rw [if_neg (by simp [he])] at h ⊢
        simp only [List.cons_append, List.append_assoc] at h ⊢
        rw [stA_log, stA_failed, stA_sleep]
        exact ih h

/-- Helper for C5: a failed `initConnection` emits a trace transparent to
the raised-flag scanner. -/
theorem initConnection_scanFalse (l : List (Option GoError)) (rest : List Ev) :
    (initConnection false l).2 = false →
    setTrueAfterConnectOk ((initConnection false l).1 ++ rest)
      = setTrueAfterConnectOk rest := by
  induction l with
  | nil => intro _; simp [initConnection]
  | cons r tl ih =>
    intro h
    rcases r with _ | e
    · simp [initConnection, connectAttempt] at h
    · by_cases he : e = GoError.typeClosed
      · subst he
        simp [initConnection, connectAttempt]
      · simp only [initConnection, connectAttempt] at h ⊢
        rw [if_neg (by simp [he])] at h ⊢
        simp only [List.cons_append, List.append_assoc] at h ⊢
        rw [stA_log, stA_failed, stA_sleep]
        exact ih h

/-- Helper for C5: any `initConnection` trace is transparent to the
lost-then-clear scanner (it emits no `lostConn`). -/
theorem initConnection_scanLost (l : List (Option GoError)) (rest : List Ev) :
    clearAfterLost ((initConnection false l).1 ++ rest) = clearAfterLost rest := by
  induction l with
  | nil => simp [initConnection]
  | cons r tl ih =>
    rcases r with _ | e
    · simp only [initConnection, connectAttempt, List.cons_append, List.nil_append]
      rw [clA_cro, clA_reset]
    · by_cases he : e = GoError.typeClosed
      · subst he
        simp [initConnection, connectAttempt]
      · simp only [initConnection, connectAttempt]
        rw [if_neg (by simp [he])]
        simp only [List.cons_append, List.append_assoc]
        rw [clA_log, clA_failed, clA_sleep]
        exact ih

/-- Helper for C5: every single read-loop iteration emits a trace that is
transparent to the raised-flag scanner — in particular the only place it
can emit `setConnected true` is immediately after a successful reconnect. -/
theorem loopIter_scanTrue (it : ReadItem) (rest : List Ev) :
    setTrueAfterConnectOk ((loopIter it).1 ++ rest) = setTrueAfterConnectOk rest := by
  rcases he : it.err with _ | e
  · rcases hm : it.msg with _ | b
    · simp [loopIter, readStep, afterConnCheck, he, hm, stA_sleep]
    · simp [loopIter, readStep, afterConnCheck, he, hm, stA_reset, stA_rcvd, stA_send,
        stA_spawn]
  · cases e with
    | timeout => simp [loopIter, readStep, afterConnCheck, he, stA_sleep]
    | typeClosed => simp [loopIter, readStep, afterConnCheck, he]
    | other code => simp [loopIter, readStep, afterConnCheck, he, stA_log, stA_sleep]
    | notConnected =>
      cases hcok : (initConnection false it.reconnect).2 with
      | false =>
        simp [loopIter, readStep, he, hcok, stA_lost, stA_setFalse]
        exact initConnection_scanFalse it.reconnect rest hcok
      | true =>
        simp [loopIter, readStep, afterConnCheck, he, hcok, stA_lost, stA_setFalse]
        rw [initConnection_scanTrue it.reconnect (Ev.sleepBackoffTick :: rest) hcok,
          stA_sleep]

/-- Helper for C5: every single read-loop iteration emits a trace that is
transparent to the lost-then-clear scanner — the only place it emits
`lostConn` is immediately followed by `setConnected false`. -/
theorem loopIter_scanLost (it : ReadItem) (rest : List Ev) :
    clearAfterLost ((loopIter it).1 ++ rest) = clearAfterLost rest := by
  rcases he : it.err with _ | e
  · rcases hm : it.msg with _ | b
    · simp [loopIter, readStep, afterConnCheck, he, hm, clA_sleep]
    · simp [loopIter, readStep, afterConnCheck, he, hm, clA_reset, clA_rcvd, clA_send,
        clA_spawn]
  · cases e with
    | timeout => simp [loopIter, readStep, afterConnCheck, he, clA_sleep]
    | typeClosed => simp [loopIter, readStep, afterConnCheck, he]
    | other code => simp [loopIter, readStep, afterConnCheck, he, clA_log, clA_sleep]
    | notConnected =>
      cases hcok : (initConnection false it.reconnect).2 with
      | false =>
        simp [loopIter, readStep, he, hcok, clA_pair]
        exact initConnection_scanLost it.reconnect rest
      | true =>
        simp [loopIter, readStep, afterConnCheck, he, hcok, clA_pair]
        rw [initConnection_scanLost it.reconnect
            (Ev.upConn :: Ev.setConnected true :: Ev.sleepBackoffTick :: rest),
          clA_up, clA_set, clA_sleep]

/-- Helper for C5: the whole read loop's trace satisfies the raised-flag
scanner. -/
theorem loopRun_scanTrue (script : List ReadItem) :
    setTrueAfterConnectOk (loopRun script) = true := by
  induction script with
  | nil => rfl
  | cons it rest ih =>
    rcases ho : loopIter it with ⟨evs, out⟩
    have hstrip : ∀ r, setTrueAfterConnectOk (evs ++ r) = setTrueAfterConnectOk r := by
      intro r
      have h := loopIter_scanTrue it r
      rw [ho] at h
      exact h
    cases out with
    | terminate =>
      simp only [loopRun, ho]
      rw [hstrip]
      rfl
    | retry =>
      simp only [loopRun, ho]
      rw [hstrip]
      exact ih
    | produced =>
      simp only [loopRun, ho]
      rw [hstrip]
      exact ih

/-- Helper for C5: the whole read loop's trace satisfies the
lost-then-clear scanner. -/
theorem loopRun_scanLost (script : List ReadItem) :
    clearAfterLost (loopRun script) = true := by
  induction script with
  | nil => rfl
  | cons it rest ih =>
    rcases ho : loopIter it with ⟨evs, out⟩
    have hstrip : ∀ r, clearAfterLost (evs ++ r) = clearAfterLost r := by
      intro r
      have h := loopIter_scanLost it r
      rw [ho] at h
      exact h
    cases out with
    | terminate =>
      simp only [loopRun, ho]
      rw [hstrip]
      rfl
    | retry =>
      simp only [loopRun, ho]
      rw [hstrip]
      exact ih
    | produced =>
      simp only [loopRun, ho]
      rw [hstrip]
      exact ih

/-- Helper for C5: the read loop always finishes with the deferred shutdown
block (clearing the flag, then closing the transactions channel). -/
theorem loopRun_endsShutdown (script : List ReadItem) :
    ∃ pre, loopRun script = pre ++ shutdownEvs := by
  induction script with
  | nil => exact ⟨[], rfl⟩
  | cons it rest ih =>
    rcases ho : loopIter it with ⟨evs, out⟩
    cases out with
    | terminate => exact ⟨evs, by simp [loopRun, ho]⟩
    | retry =>
      obtain ⟨pre, hpre⟩ := ih
      exact ⟨evs ++ pre, by simp [loopRun, ho, hpre]⟩
    | produced =>
      obtain ⟨pre, hpre⟩ := ih
      exact ⟨evs ++ pre, by simp [loopRun, ho, hpre]⟩

/-- Helper for C5: a whole-run trace in terms of the initial connection's
outcome. -/
theorem asyncReaderRun_eq (ic : List (Option GoError)) (script : List ReadItem) :
    asyncReaderRun ic script =
      (initConnection false ic).1
        ++ (if (initConnection false ic).2 = true
            then Ev.upConn :: Ev.setConnected true :: loopRun script
            else shutdownEvs) := by
  unfold asyncReaderRun
  rcases hc : initConnection false ic with ⟨evs, ok⟩
  cases ok <;> simp

/-- Claim C5: at every point of every AsyncReader execution, the
`connected` flag is set to `1` only immediately after a successful connect
(the trace block `connectReturnedOk, resetBackoff, upConn,
setConnected true` is the only context in which `setConnected true`
occurs), it is cleared to `0` whenever a read returns `ErrNotConnected`
(every `lostConn` increment is immediately followed by
`setConnected false`), and the reader's shutdown always ends the trace by
clearing the flag before closing the channel.  Hence `Connected()` can be
true only when the underlying connector's connect call has returned success
since the last lost-connection event. -/
theorem c5_connected_flag_invariant :
    ∀ (ic : List (Option GoError)) (script : List ReadItem),
      setTrueAfterConnectOk (asyncReaderRun ic script) = true
      ∧ clearAfterLost (asyncReaderRun ic script) = true
      ∧ ∃ pre, asyncReaderRun ic script = pre ++ shutdownEvs := by
  intro ic script
  rw [asyncReaderRun_eq]
  cases hk : (initConnection false ic).2 with
  | false =>
    simp only [hk, Bool.false_eq_true, if_false]
    refine ⟨?_, ?_, ⟨(initConnection false ic).1, rfl⟩⟩
    · rw [initConnection_scanFalse ic shutdownEvs hk]
      rfl
    · rw [initConnection_scanLost ic shutdownEvs]
      rfl
  | true =>
    simp only [hk, if_true]
    refine ⟨?_, ?_, ?_⟩
    · rw [initConnection_scanTrue ic (loopRun script) hk]
      exact loopRun_scanTrue script
    · rw [initConnection_scanLost ic
          (Ev.upConn :: Ev.setConnected true :: loopRun script), clA_up, clA_set]
      exact loopRun_scanLost script
    · obtain ⟨pre, hpre⟩ := loopRun_endsShutdown script
      exact ⟨(initConnection false ic).1 ++ Ev.upConn :: Ev.setConnected true :: pre,
        by simp [hpre]⟩

end Benthos
